import Mathlib

/-!
Verification of the `rookie` cookie-extraction library (dispatch layer).

This development embeds the dispatch layer of the `rookie` library
(`src/lib.rs`) in Lean 4 and proves properties of its natural-language
specification against it.

The repository source provided contains only `src/lib.rs`: the modules
`browser::chromium`, `browser::mozilla`, `browser::safari`,
`browser::internet_explorer`, `common::paths` and `config` are declared
but their code is not available.  Those external operations are modelled
as components of an abstract `Machine` state: each one is an unknown
function of the machine, and the dispatch code of `lib.rs` is transcribed
faithfully on top of them.  Compile-time `cfg_if` OS switches become an
explicit `OS` parameter.
-/

/-- The operating system, standing for the compile-time `cfg_if` switches
of the Rust source. -/
inductive OS where
  | windows
  | linux
  | macos
  deriving DecidableEq, Repr

/-- A filesystem path, modelled as its list of components.
`Path::parent` is `List.dropLast`; `Path::join c` appends `c`. -/
abbrev FsPath := List String

/-- The output cookie record, after §3 of the spec (`common::enums::Cookie`,
code not in `src/`). -/
structure Cookie where
  domain : String
  path : String
  name : String
  value : String
  expires : Option Int
  secure : Bool
  httpOnly : Bool
  sameSite : Int
  deriving DecidableEq, Repr

/-- Errors of the library.  The external modules may fail with any of the
taxonomy's per-profile errors (modelled by the first constructors and
`other`); `noDecoderMatched` is the error produced by the
`bail!("cant find any cookies")` at the end of `any_browser`, which the
spec names `NoDecoderMatched`. -/
inductive Err where
  | pathNotFound
  | keystoreUnavailable
  | keyNotFound
  | keyMalformed
  | storeLocked
  | storeCorrupt
  | noDecoderMatched
  | other (msg : String)
  deriving DecidableEq, Repr

/-- Static per-browser descriptor (`config::*_CONFIG`; the `config` module
is not in `src/`, only its `channel` display name matters to the dispatch
layer). -/
structure BrowserConfig where
  channel : String
  deriving DecidableEq, Repr

def CHROME_CONFIG : BrowserConfig := ⟨"Chrome"⟩
def CHROMIUM_CONFIG : BrowserConfig := ⟨"Chromium"⟩
def BRAVE_CONFIG : BrowserConfig := ⟨"Brave"⟩
def EDGE_CONFIG : BrowserConfig := ⟨"Edge"⟩
def OPERA_CONFIG : BrowserConfig := ⟨"Opera"⟩
def OPERA_GX_CONFIG : BrowserConfig := ⟨"OperaGX"⟩
def VIVALDI_CONFIG : BrowserConfig := ⟨"Vivaldi"⟩
def FIREFOX_CONFIG : BrowserConfig := ⟨"Firefox"⟩
def LIBRE_WOLF_CONFIG : BrowserConfig := ⟨"LibreWolf"⟩
def SAFARI_CONFIG : BrowserConfig := ⟨"Safari"⟩
def IE_CONFIG : BrowserConfig := ⟨"InternetExplorer"⟩

/-- The machine state: the behaviour of every external operation called by
`src/lib.rs` whose code is not under `src/` (path resolvers of
`common::paths`, the per-family decoders, and `std::fs::read_to_string`).
An extraction is a pure function of this state. -/
structure Machine where
  findMozillaPaths : BrowserConfig → Except Err FsPath
  findChromePaths : BrowserConfig → Except Err (FsPath × FsPath)
  findChromePathsV2 : BrowserConfig → Except Err (List (FsPath × FsPath))
  findSafariPaths : BrowserConfig → Except Err FsPath
  findIePaths : BrowserConfig → Except Err FsPath
  chromiumBasedKey : FsPath → FsPath → Option (List String) → Except Err (List Cookie)
  chromiumBasedConfig : BrowserConfig → FsPath → Option (List String) → Except Err (List Cookie)
  firefoxBased : FsPath → Option (List String) → Except Err (List Cookie)
  safariBased : FsPath → Option (List String) → Except Err (List Cookie)
  ieBased : FsPath → Option (List String) → Except Err (List Cookie)
  readToString : FsPath → Option String

/-- Embeds `rookie::firefox`. -/
def firefox (m : Machine) (domains : Option (List String)) : Except Err (List Cookie) :=
  match m.findMozillaPaths FIREFOX_CONFIG with
  | .error e => .error e
  | .ok dbPath => m.firefoxBased dbPath domains

/-- Embeds `rookie::libre_wolf`. -/
def libre_wolf (m : Machine) (domains : Option (List String)) : Except Err (List Cookie) :=
  match m.findMozillaPaths LIBRE_WOLF_CONFIG with
  | .error e => .error e
  | .ok dbPath => m.firefoxBased dbPath domains

/-- The shared shape of the Chromium-family single-profile entry points
(`chrome`, `chromium`, `brave`, `edge`, `vivaldi`, `opera`, `opera_gx`):
on Windows the resolved key path is passed to `chromium_based`, elsewhere
the browser's config is passed and the key component is discarded. -/
def chromiumEntry (cfg : BrowserConfig) (os : OS) (m : Machine)
    (domains : Option (List String)) : Except Err (List Cookie) :=
  match os with
  | .windows =>
    match m.findChromePaths cfg with
    | .error e => .error e
    | .ok (key, dbPath) => m.chromiumBasedKey key dbPath domains
  | _ =>
    match m.findChromePaths cfg with
    | .error e => .error e
    | .ok (_, dbPath) => m.chromiumBasedConfig cfg dbPath domains

/-- Embeds `rookie::chrome`. -/
def chrome (os : OS) (m : Machine) (domains : Option (List String)) :
    Except Err (List Cookie) :=
  chromiumEntry CHROME_CONFIG os m domains

/-- Embeds `rookie::chromium`. -/
def chromium (os : OS) (m : Machine) (domains : Option (List String)) :
    Except Err (List Cookie) :=
  chromiumEntry CHROMIUM_CONFIG os m domains

/-- Embeds `rookie::brave`. -/
def brave (os : OS) (m : Machine) (domains : Option (List String)) :
    Except Err (List Cookie) :=
  chromiumEntry BRAVE_CONFIG os m domains

/-- Embeds `rookie::edge`. -/
def edge (os : OS) (m : Machine) (domains : Option (List String)) :
    Except Err (List Cookie) :=
  chromiumEntry EDGE_CONFIG os m domains

/-- Embeds `rookie::vivaldi`. -/
def vivaldi (os : OS) (m : Machine) (domains : Option (List String)) :
    Except Err (List Cookie) :=
  chromiumEntry VIVALDI_CONFIG os m domains

/-- Embeds `rookie::opera`. -/
def opera (os : OS) (m : Machine) (domains : Option (List String)) :
    Except Err (List Cookie) :=
  chromiumEntry OPERA_CONFIG os m domains

/-- Embeds `rookie::opera_gx`. -/
def opera_gx (os : OS) (m : Machine) (domains : Option (List String)) :
    Except Err (List Cookie) :=
  chromiumEntry OPERA_GX_CONFIG os m domains

/-- Embeds `rookie::octo_browser` (Windows only in the source; the Lean model
keeps the `cfg` gate as the fact that the function is only called at
`OS.windows`).  The body resolves paths with `OPERA_GX_CONFIG` and runs
`chromium_based` on them, exactly as the Windows branch of `opera_gx`. -/
def octo_browser (m : Machine) (domains : Option (List String)) :
    Except Err (List Cookie) :=
  match m.findChromePaths OPERA_GX_CONFIG with
  | .error e => .error e
  | .ok (key, dbPath) => m.chromiumBasedKey key dbPath domains

/-- Rust's `str::trim`: strip whitespace from both ends of the string
(written over the character list so that it evaluates in the kernel). -/
def rustTrim (s : String) : String :=
  ⟨((s.data.dropWhile Char.isWhitespace).reverse.dropWhile Char.isWhitespace).reverse⟩

/-- Rust's `.map(f).collect::<Result<Vec<_>>>()`: apply `f` to each element
in order, stopping at the first error. -/
def mapCollect (f : β → Except Err α) : List β → Except Err (List α)
  | [] => .ok []
  | x :: xs =>
    match f x with
    | .error e => .error e
    | .ok a =>
      match mapCollect f xs with
      | .error e => .error e
      | .ok rest => .ok (a :: rest)

/-- The per-profile body shared verbatim by `chrome_v2`, `brave_v2` and
`edge_v2`: run `chromium_based` on the profile's key and cookie-db paths,
then read the sibling file `Last Version` of the key file
(`key_path.parent().unwrap().join("Last Version")`), keeping its trimmed
contents when readable and `None` on any read error. -/
def v2ProfileStep (m : Machine) (domains : Option (List String))
    (kd : FsPath × FsPath) : Except Err (List Cookie × Option String) :=
  match m.chromiumBasedKey kd.1 kd.2 domains with
  | .error e => .error e
  | .ok cookies =>
    let lastVersionPath := kd.1.dropLast ++ ["Last Version"]
    let lastVersion :=
      match m.readToString lastVersionPath with
      | some content => some (rustTrim content)
      | none => none
    .ok (cookies, lastVersion)

/-- The shared shape of the multi-profile variants: resolve all profiles,
then collect the per-profile results, short-circuiting at the first
error. -/
def v2Entry (cfg : BrowserConfig) (m : Machine) (domains : Option (List String)) :
    Except Err (List (List Cookie × Option String)) :=
  match m.findChromePathsV2 cfg with
  | .error e => .error e
  | .ok paths => mapCollect (v2ProfileStep m domains) paths

/-- Embeds `rookie::chrome_v2`. -/
def chrome_v2 (m : Machine) (domains : Option (List String)) :
    Except Err (List (List Cookie × Option String)) :=
  v2Entry CHROME_CONFIG m domains

/-- Embeds `rookie::brave_v2`. -/
def brave_v2 (m : Machine) (domains : Option (List String)) :
    Except Err (List (List Cookie × Option String)) :=
  v2Entry BRAVE_CONFIG m domains

/-- Embeds `rookie::edge_v2`. -/
def edge_v2 (m : Machine) (domains : Option (List String)) :
    Except Err (List (List Cookie × Option String)) :=
  v2Entry EDGE_CONFIG m domains

/-- Embeds `rookie::safari` (macOS only in the source). -/
def safari (m : Machine) (domains : Option (List String)) : Except Err (List Cookie) :=
  match m.findSafariPaths SAFARI_CONFIG with
  | .error e => .error e
  | .ok dbPath => m.safariBased dbPath domains

/-- Embeds `rookie::internet_explorer` (Windows only in the source). -/
def internet_explorer (m : Machine) (domains : Option (List String)) :
    Except Err (List Cookie) :=
  match m.findIePaths IE_CONFIG with
  | .error e => .error e
  | .ok dbPath => m.ieBased dbPath domains

/-- The browser entry points that `load` can push into its
`browser_types` vector. -/
inductive Browser where
  | firefox
  | libreWolf
  | opera
  | edge
  | chromium
  | brave
  | vivaldi
  | chrome
  | operaGx
  | internetExplorer
  | safari
  deriving DecidableEq, Repr, Fintype

/-- Dispatch a `Browser` tag to its entry point. -/
def runBrowser (os : OS) (m : Machine) (b : Browser)
    (domains : Option (List String)) : Except Err (List Cookie) :=
  match b with
  | .firefox => firefox m domains
  | .libreWolf => libre_wolf m domains
  | .opera => opera os m domains
  | .edge => edge os m domains
  | .chromium => chromium os m domains
  | .brave => brave os m domains
  | .vivaldi => vivaldi os m domains
  | .chrome => chrome os m domains
  | .operaGx => opera_gx os m domains
  | .internetExplorer => internet_explorer m domains
  | .safari => safari m domains

/-- The `browser_types` vector built by `load`: the common seven entries,
then the per-OS pushes of the `cfg_if` block. -/
def loadOrder (os : OS) : List Browser :=
  [.firefox, .libreWolf, .opera, .edge, .chromium, .brave, .vivaldi] ++
    match os with
    | .windows => [.chrome, .operaGx, .internetExplorer]
    | .linux => [.chrome]
    | .macos => [.operaGx, .chrome, .safari]

/-- Embeds `rookie::load`: iterate `browser_types`, extending an accumulator with
each browser's cookies, substituting the empty vector on error
(`unwrap_or(vec![])`), and return `Ok` of the accumulator. -/
def load (os : OS) (m : Machine) (domains : Option (List String)) :
    Except Err (List Cookie) :=
  .ok ((loadOrder os).foldl
    (fun acc b =>
      acc ++ match runBrowser os m b domains with
             | .ok cs => cs
             | .error _ => [])
    [])

/-- The `chrome_configs` array of `any_browser`'s unix branch, in source
order. -/
def chromeConfigs : List BrowserConfig :=
  [CHROME_CONFIG, BRAVE_CONFIG, CHROMIUM_CONFIG, EDGE_CONFIG,
   OPERA_CONFIG, OPERA_GX_CONFIG, VIVALDI_CONFIG]

/-- The `for browser_config in chrome_configs` loop of `any_browser`'s unix
branch: return the cookies of the first config whose `chromium_based`
succeeds, `none` when all fail. -/
def tryChromiumConfigs (m : Machine) (cookiesPath : FsPath)
    (domains : Option (List String)) : List BrowserConfig → Option (List Cookie)
  | [] => none
  | cfg :: rest =>
    match m.chromiumBasedConfig cfg cookiesPath domains with
    | .ok cookies => some cookies
    | .error _ => tryChromiumConfigs m cookiesPath domains rest

/-- The part of `any_browser` after the chromium-based attempts: try
`firefox_based`, then `internet_explorer_based` on Windows or
`safari_based` on macOS, and finally `bail!("cant find any cookies")`,
which the spec names `NoDecoderMatched`. -/
def anyBrowserTail (os : OS) (m : Machine) (cookiesPath : FsPath)
    (domains : Option (List String)) : Except Err (List Cookie) :=
  match m.firefoxBased cookiesPath domains with
  | .ok cookies => .ok cookies
  | .error _ =>
    match os with
    | .windows =>
      match m.ieBased cookiesPath domains with
      | .ok cookies => .ok cookies
      | .error _ => .error .noDecoderMatched
    | .macos =>
      match m.safariBased cookiesPath domains with
      | .ok cookies => .ok cookies
      | .error _ => .error .noDecoderMatched
    | .linux => .error .noDecoderMatched

/-- Embeds `rookie::any_browser`: on unix try `chromium_based` with each built-in
config (the `for` loop over `chrome_configs`, returning at the first
success); on Windows try it once with the given `key_path` when present
and not at all otherwise; then fall through to `anyBrowserTail` (the
early `return Ok(cookies)` statements of the source become the
success branches here). -/
def any_browser (os : OS) (m : Machine) (cookiesPath : FsPath)
    (domains : Option (List String)) (keyPath : Option FsPath) :
    Except Err (List Cookie) :=
  match os with
  | .windows =>
    match keyPath with
    | some kp =>
      match m.chromiumBasedKey kp cookiesPath domains with
      | .ok cookies => .ok cookies
      | .error _ => anyBrowserTail .windows m cookiesPath domains
    | none => anyBrowserTail .windows m cookiesPath domains
  | .linux =>
    match tryChromiumConfigs m cookiesPath domains chromeConfigs with
    | some cookies => .ok cookies
    | none => anyBrowserTail .linux m cookiesPath domains
  | .macos =>
    match tryChromiumConfigs m cookiesPath domains chromeConfigs with
    | some cookies => .ok cookies
    | none => anyBrowserTail .macos m cookiesPath domains

/-- Modelled from the spec: the `domains` filter predicate of the Record
Normalizer (§4.E, §6); the normalizer code is in the component modules,
not under `src/`.  A hostname `H` matches an entry `d` iff `d` equals
`H`, or `d` is a suffix of `H` preceded by `.`, or `H` begins with
`.d`. -/
def domainMatches (d H : String) : Bool :=
  d == H || H.endsWith ("." ++ d) || H.startsWith ("." ++ d)

/-- Modelled from the spec: the `domains` filter of the Record Normalizer
(§4.E, §6): with a present filter keep exactly the rows whose host
matches some entry; with an absent filter keep all rows. -/
def filterDomains (domains : Option (List String)) (rows : List Cookie) :
    List Cookie :=
  match domains with
  | none => rows
  | some ds => rows.filter (fun c => ds.any (fun d => domainMatches d c.domain))

/-! ## Helper machines for concrete evaluations -/

/-- A machine on which every external operation fails and no file is
readable. -/
def emptyMachine : Machine where
  findMozillaPaths := fun _ => .error .pathNotFound
  findChromePaths := fun _ => .error .pathNotFound
  findChromePathsV2 := fun _ => .error .pathNotFound
  findSafariPaths := fun _ => .error .pathNotFound
  findIePaths := fun _ => .error .pathNotFound
  chromiumBasedKey := fun _ _ _ => .error .pathNotFound
  chromiumBasedConfig := fun _ _ _ => .error .pathNotFound
  firefoxBased := fun _ _ => .error .pathNotFound
  safariBased := fun _ _ => .error .pathNotFound
  ieBased := fun _ _ => .error .pathNotFound
  readToString := fun _ => none

/-! ## Theorems -/

/-- C4: `octo_browser` performs the Chromium-based extraction with
`OPERA_GX_CONFIG` for both the key and the cookie-database path
resolution, so on any machine state and any domains filter its result
equals that of the `opera_gx` extraction (on Windows, the only OS where
`octo_browser` is compiled). -/
theorem octo_browser_eq_opera_gx (m : Machine) (d : Option (List String)) :
    octo_browser m d = opera_gx OS.windows m d := rfl

/-- C6: with a present domains filter, a cookie is kept iff it was in the
unfiltered rows and some filter entry `d` equals its host, or `.d` is a
suffix of its host, or its host begins with `.d`; with an absent filter
all rows are kept.  (The Record Normalizer is modelled from the spec, its
code not being under `src/`.) -/
theorem filterDomains_membership (ds : List String) (rows : List Cookie) (c : Cookie) :
    (c ∈ filterDomains (some ds) rows ↔
      c ∈ rows ∧ ∃ d ∈ ds, d = c.domain ∨
        c.domain.endsWith ("." ++ d) = true ∨
        c.domain.startsWith ("." ++ d) = true) ∧
    filterDomains none rows = rows := by
  constructor
  · simp [filterDomains, List.mem_filter, List.any_eq_true, domainMatches,
      Bool.or_eq_true, beq_iff_eq, or_assoc]
  · rfl

/-- C7: every extraction of the dispatch layer is a pure function of its
arguments and the machine state, so two runs on an unchanged store and
key material (an unchanged `Machine`) return equal result sets. -/
theorem extraction_deterministic (os : OS) (m : Machine) (p : FsPath)
    (d : Option (List String)) (kp : Option FsPath) :
    load os m d = load os m d ∧
    any_browser os m p d kp = any_browser os m p d kp ∧
    chrome_v2 m d = chrome_v2 m d ∧
    brave_v2 m d = brave_v2 m d ∧
    edge_v2 m d = edge_v2 m d ∧
    (∀ b : Browser, runBrowser os m b d = runBrowser os m b d) :=
  ⟨rfl, rfl, rfl, rfl, rfl, fun _ => rfl⟩

/-- The decoders `any_browser` attempts, in attempt order: the
Chromium-family attempts (each built-in config on unix; one keyed attempt
on Windows when `key_path` is present, none otherwise), then the Firefox
decoder, then Internet Explorer on Windows / Safari on macOS. -/
def decoderAttempts (os : OS) (m : Machine) (p : FsPath)
    (d : Option (List String)) (kp : Option FsPath) :
    List (Except Err (List Cookie)) :=
  (match os with
   | .windows =>
     match kp with
     | some k => [m.chromiumBasedKey k p d]
     | none => []
   | .linux => chromeConfigs.map fun cfg => m.chromiumBasedConfig cfg p d
   | .macos => chromeConfigs.map fun cfg => m.chromiumBasedConfig cfg p d) ++
  [m.firefoxBased p d] ++
  (match os with
   | .windows => [m.ieBased p d]
   | .macos => [m.safariBased p d]
   | .linux => [])

/-- Return the payload of the first successful attempt, or the
`NoDecoderMatched` error when none succeeds. -/
def firstOk : List (Except Err (List Cookie)) → Except Err (List Cookie)
  | [] => .error .noDecoderMatched
  | r :: rs =>
    match r with
    | .ok cs => .ok cs
    | .error _ => firstOk rs

lemma firstOk_map_chromium (m : Machine) (p : FsPath) (d : Option (List String))
    (rest : List (Except Err (List Cookie))) :
    ∀ cfgs : List BrowserConfig,
      firstOk ((cfgs.map fun cfg => m.chromiumBasedConfig cfg p d) ++ rest) =
        match tryChromiumConfigs m p d cfgs with
        | some cs => .ok cs
        | none => firstOk rest := by
  intro cfgs
  induction cfgs with
  | nil => rfl
  | cons cfg cfgs ih =>
    simp only [List.map_cons, List.cons_append, firstOk, tryChromiumConfigs]
    cases m.chromiumBasedConfig cfg p d with
    | ok cs => rfl
    | error e => exact ih

lemma firstOk_eq_error_iff (rs : List (Except Err (List Cookie))) :
    firstOk rs = .error Err.noDecoderMatched ↔ ∀ r ∈ rs, ∃ e, r = .error e := by
  induction rs with
  | nil => simp [firstOk]
  | cons r rs ih =>
    cases r with
    | ok cs => simp [firstOk]
    | error e => simp [firstOk, ih]

/-- C1: `any_browser` returns the cookies of the first decoder attempt
that succeeds, the attempts being the Chromium-family ones, then
Firefox, then Internet Explorer on Windows / Safari on macOS; and it
fails, with the `NoDecoderMatched` error, exactly when every attempt
fails. -/
lemma anyBrowserTail_eq_firstOk (os : OS) (m : Machine) (p : FsPath)
    (d : Option (List String)) :
    anyBrowserTail os m p d =
      firstOk ([m.firefoxBased p d] ++
        (match os with
         | .windows => [m.ieBased p d]
         | .macos => [m.safariBased p d]
         | .linux => [])) := by
  cases os <;>
    simp only [anyBrowserTail, List.cons_append, List.nil_append, firstOk]

/-- C1: `any_browser` returns the cookies of the first decoder attempt
that succeeds, the attempts being the Chromium-family ones, then
Firefox, then Internet Explorer on Windows / Safari on macOS; and it
fails, with the `NoDecoderMatched` error, exactly when every attempt
fails. -/
theorem any_browser_first_decoder (os : OS) (m : Machine) (p : FsPath)
    (d : Option (List String)) (kp : Option FsPath) :
    any_browser os m p d kp = firstOk (decoderAttempts os m p d kp) ∧
    (any_browser os m p d kp = .error Err.noDecoderMatched ↔
      ∀ r ∈ decoderAttempts os m p d kp, ∃ e, r = .error e) := by
  have h : any_browser os m p d kp = firstOk (decoderAttempts os m p d kp) := by
    cases os with
    | windows =>
      cases kp with
      | none =>
        simp only [any_browser, decoderAttempts, List.nil_append]
        exact anyBrowserTail_eq_firstOk .windows m p d
      | some k =>
        simp only [any_browser, decoderAttempts, List.append_assoc, List.cons_append,
          List.nil_append, firstOk]
        cases m.chromiumBasedKey k p d with
        | ok cs => rfl
        | error e =>
          rw [anyBrowserTail_eq_firstOk]
          rfl
    | linux =>
      simp only [any_browser, decoderAttempts, List.append_assoc]
      rw [firstOk_map_chromium]
      cases tryChromiumConfigs m p d chromeConfigs with
      | some cs => rfl
      | none => rw [anyBrowserTail_eq_firstOk]
    | macos =>
      simp only [any_browser, decoderAttempts, List.append_assoc]
      rw [firstOk_map_chromium]
      cases tryChromiumConfigs m p d chromeConfigs with
      | some cs => rfl
      | none => rw [anyBrowserTail_eq_firstOk]
  exact ⟨h, h ▸ firstOk_eq_error_iff _⟩

/-- C9: on Windows with `key_path = None`, `any_browser` never attempts a
Chromium-family decoder: its result is independent of the machine's
chromium decoding behaviour (first conjunct, for any two machines that
agree on the Firefox and Internet Explorer decoders), and it is exactly
the Firefox attempt followed by the Internet Explorer attempt followed by
the `NoDecoderMatched` error (second conjunct). -/
theorem any_browser_windows_no_key (m₁ m₂ : Machine) (p : FsPath)
    (d : Option (List String))
    (hff : m₁.firefoxBased = m₂.firefoxBased) (hie : m₁.ieBased = m₂.ieBased) :
    any_browser OS.windows m₁ p d none = any_browser OS.windows m₂ p d none ∧
    any_browser OS.windows m₁ p d none =
      (match m₁.firefoxBased p d with
       | .ok cookies => .ok cookies
       | .error _ =>
         match m₁.ieBased p d with
         | .ok cookies => .ok cookies
         | .error _ => .error Err.noDecoderMatched) := by
  constructor
  · simp only [any_browser, anyBrowserTail, hff, hie]
  · rfl

/-- C10: on Linux and on macOS, `any_browser` ignores its `key_path`
argument entirely (first two conjuncts), and its Chromium phase tries the
built-in configurations in the fixed order Chrome, Brave, Chromium, Edge,
Opera, Opera GX, Vivaldi before falling back to the remaining decoders
(last two conjuncts, where the config list is spelled out). -/
theorem any_browser_unix_ignores_key (m : Machine) (p : FsPath)
    (d : Option (List String)) (kp kp' : Option FsPath) :
    any_browser OS.linux m p d kp = any_browser OS.linux m p d kp' ∧
    any_browser OS.macos m p d kp = any_browser OS.macos m p d kp' ∧
    any_browser OS.linux m p d kp =
      (match tryChromiumConfigs m p d
          [CHROME_CONFIG, BRAVE_CONFIG, CHROMIUM_CONFIG, EDGE_CONFIG,
           OPERA_CONFIG, OPERA_GX_CONFIG, VIVALDI_CONFIG] with
       | some cookies => .ok cookies
       | none => anyBrowserTail .linux m p d) ∧
    any_browser OS.macos m p d kp =
      (match tryChromiumConfigs m p d
          [CHROME_CONFIG, BRAVE_CONFIG, CHROMIUM_CONFIG, EDGE_CONFIG,
           OPERA_CONFIG, OPERA_GX_CONFIG, VIVALDI_CONFIG] with
       | some cookies => .ok cookies
       | none => anyBrowserTail .macos m p d) :=
  ⟨rfl, rfl, rfl, rfl⟩

lemma foldl_append_eq_flatMap (f : Browser → List Cookie) :
    ∀ (l : List Browser) (acc : List Cookie),
      l.foldl (fun a b => a ++ f b) acc = acc ++ l.flatMap f := by
  intro l
  induction l with
  | nil => intro acc; simp
  | cons b l ih =>
    intro acc
    simp [List.foldl_cons, ih, List.append_assoc]

/-- C2: for every domains filter and machine state, `load` returns `Ok` of
the concatenation, in the fixed `loadOrder` browser order, of each
per-browser extraction's cookies, a failing browser contributing the
empty list; in particular no per-browser error is ever propagated. -/
theorem load_ok_concat (os : OS) (m : Machine) (d : Option (List String)) :
    load os m d = .ok ((loadOrder os).flatMap fun b =>
      match runBrowser os m b d with
      | .ok cs => cs
      | .error _ => []) := by
  simp only [load]
  rw [foldl_append_eq_flatMap (fun b =>
    match runBrowser os m b d with
    | .ok cs => cs
    | .error _ => [])]
  rw [List.nil_append]

/-- C5 counterexample: on Linux, `load`'s browser list does not contain
Opera GX, although Opera GX is a supported Chromium-family browser there
(`opera_gx` is compiled on Linux and `any_browser` tries
`OPERA_GX_CONFIG` on Linux), so the claim fails at the Linux instance. -/
theorem load_linux_omits_opera_gx : Browser.operaGx ∉ loadOrder OS.linux := by
  decide

/-- C5 (amended): `load`'s per-browser list contains the full supported
set except that Opera GX is missing on Linux: on Windows it holds every
browser but Safari, on macOS every browser but Internet Explorer, and on
Linux every browser except Safari, Internet Explorer and Opera GX. -/
theorem loadOrder_coverage :
    (∀ b : Browser, b ∈ loadOrder OS.windows ↔ b ≠ Browser.safari) ∧
    (∀ b : Browser, b ∈ loadOrder OS.macos ↔ b ≠ Browser.internetExplorer) ∧
    (∀ b : Browser, b ∈ loadOrder OS.linux ↔
      (b ≠ Browser.safari ∧ b ≠ Browser.internetExplorer ∧ b ≠ Browser.operaGx)) := by
  decide

lemma mapCollect_ok_forall₂ (f : β → Except Err α) :
    ∀ xs ys, mapCollect f xs = .ok ys →
      List.Forall₂ (fun x y => f x = .ok y) xs ys := by
  intro xs
  induction xs with
  | nil =>
    intro ys h
    simp only [mapCollect, Except.ok.injEq] at h
    subst h
    exact .nil
  | cons x xs ih =>
    intro ys h
    simp only [mapCollect] at h
    cases hfx : f x with
    | error e => rw [hfx] at h; exact absurd h (by simp)
    | ok a =>
      rw [hfx] at h
      cases hrest : mapCollect f xs with
      | error e => rw [hrest] at h; exact absurd h (by simp)
      | ok rest =>
        rw [hrest] at h
        simp only [Except.ok.injEq] at h
        subst h
        exact .cons hfx (ih rest hrest)

lemma mapCollect_error_of_mem (f : β → Except Err α) (x : β) (e : Err) :
    ∀ xs, x ∈ xs → f x = .error e → ∃ e', mapCollect f xs = .error e' := by
  intro xs
  induction xs with
  | nil => intro h; exact absurd h (List.not_mem_nil x)
  | cons y ys ih =>
    intro hmem hfx
    rcases List.mem_cons.mp hmem with rfl | hmem'
    · exact ⟨e, by simp [mapCollect, hfx]⟩
    · cases hfy : f y with
      | error e2 => exact ⟨e2, by simp [mapCollect, hfy]⟩
      | ok a =>
        obtain ⟨e', he'⟩ := ih hmem' hfx
        exact ⟨e', by simp [mapCollect, hfy, he']⟩

lemma v2Entry_lastVersion (cfg : BrowserConfig) (m : Machine)
    (d : Option (List String)) (pairs : List (FsPath × FsPath))
    (results : List (List Cookie × Option String))
    (hp : m.findChromePathsV2 cfg = .ok pairs)
    (hr : v2Entry cfg m d = .ok results) :
    List.Forall₂ (fun (kd : FsPath × FsPath) (r : List Cookie × Option String) =>
      r.2 = match m.readToString (kd.1.dropLast ++ ["Last Version"]) with
            | some content => some (rustTrim content)
            | none => none) pairs results := by
  unfold v2Entry at hr
  rw [hp] at hr
  refine (mapCollect_ok_forall₂ _ _ _ hr).imp ?_
  intro kd r hkd
  unfold v2ProfileStep at hkd
  cases hc : m.chromiumBasedKey kd.1 kd.2 d with
  | error e => rw [hc] at hkd; exact absurd hkd (by simp)
  | ok cs =>
    rw [hc] at hkd
    simp only [Except.ok.injEq] at hkd
    subst hkd
    rfl

/-- A machine with one discovered Chromium profile whose `Last Version`
sibling file holds `" 119.0\n"` and whose cookie decryption succeeds with
an empty cookie list. -/
def vMachine : Machine :=
  { emptyMachine with
    findChromePathsV2 := fun _ =>
      .ok [(["User Data", "Local State"], ["User Data", "Default", "Cookies"])]
    chromiumBasedKey := fun _ _ _ => .ok []
    readToString := fun p =>
      if p = ["User Data", "Last Version"] then some " 119.0\n" else none }

/-- C3 counterexample: on `vMachine` the `Last Version` file is present and
readable with contents `" 119.0\n"`, yet `chrome_v2` reports
`last_version = some "119.0"` — the trimmed contents, not the contents —
so the claim as stated fails on this input. -/
theorem chrome_v2_last_version_not_raw :
    vMachine.readToString ["User Data", "Last Version"] = some " 119.0\n" ∧
    chrome_v2 vMachine none = .ok [([], some "119.0")] ∧
    (" 119.0\n" : String) ≠ "119.0" := by
  refine ⟨by decide, by rfl, by decide⟩

/-- C3 (amended): for each entry of the multi-profile variants
(`chrome_v2`, `brave_v2`, `edge_v2`), the second component
`last_version` is the whitespace-trimmed contents of the sibling file
named `Last Version` next to the profile's key file when that file is
present and readable, and `none` otherwise. -/
theorem v2_last_version_trimmed (m : Machine) (d : Option (List String)) :
    (∀ pairs results,
      m.findChromePathsV2 CHROME_CONFIG = .ok pairs →
      chrome_v2 m d = .ok results →
      List.Forall₂ (fun (kd : FsPath × FsPath) (r : List Cookie × Option String) =>
        r.2 = match m.readToString (kd.1.dropLast ++ ["Last Version"]) with
              | some content => some (rustTrim content)
              | none => none) pairs results) ∧
    (∀ pairs results,
      m.findChromePathsV2 BRAVE_CONFIG = .ok pairs →
      brave_v2 m d = .ok results →
      List.Forall₂ (fun (kd : FsPath × FsPath) (r : List Cookie × Option String) =>
        r.2 = match m.readToString (kd.1.dropLast ++ ["Last Version"]) with
              | some content => some (rustTrim content)
              | none => none) pairs results) ∧
    (∀ pairs results,
      m.findChromePathsV2 EDGE_CONFIG = .ok pairs →
      edge_v2 m d = .ok results →
      List.Forall₂ (fun (kd : FsPath × FsPath) (r : List Cookie × Option String) =>
        r.2 = match m.readToString (kd.1.dropLast ++ ["Last Version"]) with
              | some content => some (rustTrim content)
              | none => none) pairs results) :=
  ⟨fun _ _ hp hr => v2Entry_lastVersion CHROME_CONFIG m d _ _ hp hr,
   fun _ _ hp hr => v2Entry_lastVersion BRAVE_CONFIG m d _ _ hp hr,
   fun _ _ hp hr => v2Entry_lastVersion EDGE_CONFIG m d _ _ hp hr⟩

/-- Witness for the amended C3 theorem at the concrete machine `vMachine`:
its single profile's `last_version` is the trimmed contents of the
`Last Version` file. -/
theorem v2_last_version_trimmed_witness :
    List.Forall₂ (fun (kd : FsPath × FsPath) (r : List Cookie × Option String) =>
      r.2 = match vMachine.readToString (kd.1.dropLast ++ ["Last Version"]) with
            | some content => some (rustTrim content)
            | none => none)
      [(["User Data", "Local State"], ["User Data", "Default", "Cookies"])]
      [([], some "119.0")] :=
  (v2_last_version_trimmed vMachine none).1
    [(["User Data", "Local State"], ["User Data", "Default", "Cookies"])]
    [([], some "119.0")] rfl (by rfl)

lemma v2Entry_error_of_profile_error (cfg : BrowserConfig) (m : Machine)
    (d : Option (List String)) (pairs : List (FsPath × FsPath))
    (kd : FsPath × FsPath) (e : Err)
    (hp : m.findChromePathsV2 cfg = .ok pairs) (hmem : kd ∈ pairs)
    (hfail : m.chromiumBasedKey kd.1 kd.2 d = .error e) :
    ∃ e', v2Entry cfg m d = .error e' := by
  have hstep : v2ProfileStep m d kd = .error e := by
    unfold v2ProfileStep
    rw [hfail]
  obtain ⟨e', he'⟩ := mapCollect_error_of_mem (v2ProfileStep m d) kd e pairs hmem hstep
  refine ⟨e', ?_⟩
  unfold v2Entry
  rw [hp]
  exact he'

/-- C8: in the multi-profile variants `chrome_v2`, `brave_v2` and
`edge_v2`, if the extraction of any single discovered profile fails, the
whole call returns an error — the successful profiles' cookies are not
returned, so partial results are never produced. -/
theorem v2_all_or_nothing (m : Machine) (d : Option (List String)) :
    (∀ pairs kd e,
      m.findChromePathsV2 CHROME_CONFIG = .ok pairs → kd ∈ pairs →
      m.chromiumBasedKey kd.1 kd.2 d = .error e →
      ∃ e', chrome_v2 m d = .error e') ∧
    (∀ pairs kd e,
      m.findChromePathsV2 BRAVE_CONFIG = .ok pairs → kd ∈ pairs →
      m.chromiumBasedKey kd.1 kd.2 d = .error e →
      ∃ e', brave_v2 m d = .error e') ∧
    (∀ pairs kd e,
      m.findChromePathsV2 EDGE_CONFIG = .ok pairs → kd ∈ pairs →
      m.chromiumBasedKey kd.1 kd.2 d = .error e →
      ∃ e', edge_v2 m d = .error e') :=
  ⟨fun _ kd e hp hmem hfail => v2Entry_error_of_profile_error CHROME_CONFIG m d _ kd e hp hmem hfail,
   fun _ kd e hp hmem hfail => v2Entry_error_of_profile_error BRAVE_CONFIG m d _ kd e hp hmem hfail,
   fun _ kd e hp hmem hfail => v2Entry_error_of_profile_error EDGE_CONFIG m d _ kd e hp hmem hfail⟩

/-- A machine with one discovered Chromium profile whose key-based cookie
decryption fails. -/
def profileFailMachine : Machine :=
  { emptyMachine with
    findChromePathsV2 := fun _ =>
      .ok [(["User Data", "Local State"], ["User Data", "Default", "Cookies"])]
    chromiumBasedKey := fun _ _ _ => .error .keyNotFound }

/-- Witness for the C8 theorem at the concrete machine
`profileFailMachine`: its single profile fails, and `chrome_v2` returns
an error. -/
theorem v2_all_or_nothing_witness :
    ∃ e', chrome_v2 profileFailMachine none = .error e' :=
  (v2_all_or_nothing profileFailMachine none).1
    [(["User Data", "Local State"], ["User Data", "Default", "Cookies"])]
    (["User Data", "Local State"], ["User Data", "Default", "Cookies"])
    .keyNotFound rfl (by simp) rfl

/-- A machine whose Chromium key-based decoder would succeed with one
cookie but on which every other decoder fails. -/
def chromiumOnlyMachine : Machine :=
  { emptyMachine with
    chromiumBasedKey := fun _ _ _ =>
      .ok [⟨".example.com", "/", "sid", "ABC", none, false, false, 0⟩] }

/-- Witness for the C9 theorem: `chromiumOnlyMachine` and `emptyMachine`
agree on the Firefox and Internet Explorer decoders, so on Windows with
no `key_path` the call cannot see the (would-be successful) Chromium
decoder and both machines give the same result. -/
theorem any_browser_windows_no_key_witness :
    any_browser OS.windows chromiumOnlyMachine ["Cookies"] none none =
      any_browser OS.windows emptyMachine ["Cookies"] none none ∧
    any_browser OS.windows chromiumOnlyMachine ["Cookies"] none none =
      (match chromiumOnlyMachine.firefoxBased ["Cookies"] none with
       | .ok cookies => .ok cookies
       | .error _ =>
         match chromiumOnlyMachine.ieBased ["Cookies"] none with
         | .ok cookies => .ok cookies
         | .error _ => .error Err.noDecoderMatched) :=
  any_browser_windows_no_key chromiumOnlyMachine emptyMachine ["Cookies"] none rfl rfl
